import Mathlib

/-!
Shallow embedding of the compliance risk analyzer (`src/app.py`) and proofs
about its metric parser, risk classifier, risk aggregator, regulatory-search
stage and report synthesizer.  External collaborators (Bedrock knowledge base,
DuckDuckGo backends, the narrative summarizer, the system clock) are modelled
as explicit parameters: an `Except String` value stands for a Python call that
either returns (`.ok`) or raises (`.error` carrying the message of the raised
exception).  Machine strings are Lean `String`s; the integer metric values
produced by `int(...)` in the parser are Lean `Int`s.
-/

namespace CRA

/-- Models Python `c * n` string repetition for a single character,
e.g. `"=" * 80`. -/
def repChar (c : Char) (n : Nat) : String :=
  String.mk (List.replicate n c)

/-- The whitespace characters Python `str.strip()` removes (ASCII set;
Python also strips some rarer Unicode spaces, which the pipeline's inputs do
not contain). -/
def isPySpace (c : Char) : Bool :=
  c = ' ' || c = '\t' || c = '\n' || c = '\r' || c = '\x0b' || c = '\x0c'

/-- Python `str.strip()` on the character list. -/
def pyStripList (cs : List Char) : List Char :=
  ((cs.dropWhile isPySpace).reverse.dropWhile isPySpace).reverse

/-- Python `str.strip()`. -/
def pyStrip (s : String) : String := String.mk (pyStripList s.data)

/-- Is the first list a prefix of the second? -/
def isPrefixList : List Char → List Char → Bool
  | [], _ => true
  | _ :: _, [] => false
  | p :: ps, c :: cs => p = c && isPrefixList ps cs

/-- Python `s.startswith(pre)`. -/
def pyStartsWith (s pre : String) : Bool := isPrefixList pre.data s.data

/-- Worker for Python `str.split(sep)` with a non-empty separator: at each
position, a separator occurrence ends the current piece, otherwise one
character is consumed.  `fuel` only bounds the recursion; it is instantiated
with more steps than the input has characters, so it never runs out. -/
def pySplitGo (sep : List Char) : Nat → List Char → List Char → List (List Char)
  | 0, s, acc => [acc ++ s]
  | Nat.succ fuel, s, acc =>
    if isPrefixList sep s && !sep.isEmpty then
      acc :: pySplitGo sep fuel (s.drop sep.length) []
    else
      match s with
      | [] => [acc]
      | c :: rest => pySplitGo sep fuel rest (acc ++ [c])

/-- Python `s.split(sep)` for a non-empty separator (the only way the source
calls it).  An empty separator returns the whole string, a case the source
never reaches. -/
def pySplit (s sep : String) : List String :=
  if sep.data.isEmpty then [s]
  else (pySplitGo sep.data (s.data.length + 1) s.data []).map String.mk

/-- Python substring test `sub in s`: some position of `s` starts with
`sub` (the empty string is contained in every string). -/
def containsList (sub : List Char) : List Char → Bool
  | [] => sub.isEmpty
  | c :: rest => isPrefixList sub (c :: rest) || containsList sub rest

/-- Python `sub in s`. -/
def containsSubstr (s sub : String) : Bool := containsList sub.data s.data

/-- Python slicing `s[:n]` (by code points). -/
def pyTake (s : String) (n : Nat) : String := String.mk (s.data.take n)

/-- Python `str.lower()` (ASCII behaviour). -/
def pyLower (s : String) : String := String.mk (s.data.map Char.toLower)

/-- Python `sep.join(parts)`. -/
def pyJoin (sep : String) : List String → String
  | [] => ""
  | a :: as => as.foldl (fun acc x => acc ++ sep ++ x) a

/-- Python `s.replace('_', ' ')`: with a one-character pattern, substring
replacement is a per-character substitution. -/
def pyUnderscoreToSpace (s : String) : String :=
  String.mk (s.data.map (fun c => if c = '_' then ' ' else c))

/-- Tail of a Python integer literal after its first digit: digits with single
underscores allowed between digits (CPython grammar for `int(str)`). -/
def pyDigitsTail : List Char → Bool
  | [] => true
  | '_' :: c :: rest => c.isDigit && pyDigitsTail rest
  | c :: rest => c.isDigit && pyDigitsTail rest

/-- Numeric value of a list of decimal digit characters. -/
def digitsVal (cs : List Char) : Nat :=
  cs.foldl (fun a c => 10 * a + (c.toNat - 48)) 0

/-- Unsigned part of Python `int(str)`: a non-empty digit string, with
single underscores permitted between digits. -/
def pyNatDigits (cs : List Char) : Option Nat :=
  match cs with
  | [] => none
  | c :: rest =>
    if c.isDigit && pyDigitsTail rest then
      some (digitsVal ((c :: rest).filter (fun x => x != '_')))
    else none

/-- Models Python `int(str)`: surrounding whitespace is stripped, an optional
sign is followed by at least one ASCII decimal digit, with single underscores
permitted between digits.  (Non-ASCII digit characters, which CPython also
accepts, are not modelled; the pipeline's inputs are ASCII.) -/
def pyInt (s : String) : Option Int :=
  match pyStripList s.data with
  | '-' :: rest => (pyNatDigits rest).map (fun n => -(n : Int))
  | '+' :: rest => (pyNatDigits rest).map (fun n => (n : Int))
  | rest => (pyNatDigits rest).map (fun n => (n : Int))

/-- Models Python `str.title()` for ASCII text: a letter that follows a
non-letter is uppercased, a letter that follows a letter is lowercased. -/
def pyTitleGo : Bool → List Char → List Char
  | _, [] => []
  | prevAlpha, c :: rest =>
    if c.isAlpha then
      (if prevAlpha then c.toLower else c.toUpper) :: pyTitleGo true rest
    else c :: pyTitleGo false rest

/-- Models Python `str.title()` (ASCII behaviour). -/
def pyTitle (s : String) : String :=
  String.mk (pyTitleGo false s.data)

/-- Models Python `repr(float(v))`/`str(float(v))` for the integral values the
pipeline produces (`repr(3.0) = "3.0"`, `repr(-5.0) = "-5.0"`; exact for the
integer range the metrics live in). -/
def floatRepr (v : Int) : String :=
  toString v ++ ".0"

/-- Python `dict` assignment `m[k] = v` on an insertion-ordered association
list: an existing key keeps its position and gets the new value, a new key is
appended at the end. -/
def dictInsert (m : List (String × α)) (k : String) (v : α) : List (String × α) :=
  if m.any (fun p => p.1 == k) then
    m.map (fun p => if p.1 == k then (k, v) else p)
  else m ++ [(k, v)]

/-- Python `dict` lookup `m.get(k)` on the association-list model. -/
def pyLookup (m : List (String × α)) (k : String) : Option α :=
  (m.find? (fun p => p.1 == k)).map (fun p => p.2)

/-- Fence stripping at the top of `parse_csv_metrics`: if a markdown fence
marker occurs, keep the text between the first marker and the next plain
fence (Python `csv_content.split(x)[1].split(y)[0]`). -/
def stripFence (csv_content : String) : String :=
  if containsSubstr csv_content "```csv" then
    (pySplit ((pySplit csv_content "```csv").getD 1 "") "```").headD ""
  else if containsSubstr csv_content "```" then
    (pySplit ((pySplit csv_content "```").getD 1 "") "```").headD ""
  else csv_content

/-- One iteration of the parsing loop in `parse_csv_metrics`: the stripped
line is skipped when empty or when it starts with `customer_id`; otherwise
it is split on commas, and with at least 4 fields whose numeric fields all
parse as Python integers it yields the customer id and the three-metric
record (in the dict-literal insertion order of the source). -/
def parseLine (line : String) : Option (String × List (String × Int)) :=
  let l := pyStrip line
  if l == "" || pyStartsWith l "customer_id" then none
  else
    match pySplit l "," with
    | f0 :: f1 :: f2 :: f3 :: _ =>
      match pyInt (pyStrip f1), pyInt (pyStrip f2), pyInt (pyStrip f3) with
      | some a, some b, some c =>
        some (pyStrip f0,
          [("negative_accum_count", a),
           ("match_rate_percent", b),
           ("referral_capture_rate_percent", c)])
      | _, _, _ => none
    | _ => none

/-- `parse_csv_metrics` from `src/app.py`: strip an optional markdown fence,
split into lines, and fold every line through the skip-or-insert loop. -/
def parse_csv_metrics (csv_content : String) : List (String × List (String × Int)) :=
  let content := stripFence csv_content
  let lines := pySplit (pyStrip content) "\n"
  lines.foldl (fun metrics line =>
    match parseLine line with
    | some (cid, rec) => dictInsert metrics cid rec
    | none => metrics) []

/-- The per-line contributions of an input: the records of exactly the lines
the parsing loop accepts, in input order. -/
def contributions (csv_content : String) : List (String × List (String × Int)) :=
  (pySplit (pyStrip (stripFence csv_content)) "\n").filterMap parseLine

/-- The `thresholds` dict of `evaluate_risk_level`.  `none` in the first
component models `float('inf')` (every value is `≤` it). -/
def thresholds : List (String × List (Option Int × String × String)) :=
  [("negative_accum_count",
     [(some 5, "Low Risk", "0–5"),
      (some 15, "Medium Risk", "6–15"),
      (none, "High Risk", ">15")]),
   ("match_rate_percent",
     [(some 85, "High Risk", "<70"),
      (some 70, "Medium Risk", "70–85"),
      (none, "Low Risk", ">85")]),
   ("referral_capture_rate_percent",
     [(some 40, "High Risk", "<40"),
      (some 60, "Medium Risk", "40–60"),
      (none, "Low Risk", ">60")])]

/-- `value <= threshold`, where `none` models `float('inf')`. -/
def leThreshold (value : Int) : Option Int → Bool
  | none => true
  | some t => value ≤ t

/-- The `for threshold, risk_level, range_str in thresholds[...]` loop of
`evaluate_risk_level`, falling through to the `('Unknown', 'Unknown')`
return when no triple matches. -/
def scanThresholds (value : Int) : List (Option Int × String × String) → String × String
  | [] => ("Unknown", "Unknown")
  | (t, risk_level, range_str) :: rest =>
    if leThreshold value t then (risk_level, range_str)
    else scanThresholds value rest

/-- `evaluate_risk_level` from `src/app.py`.  The `match_rate_percent` branch
is special-cased exactly as in the source; for every other name the source
subscripts the `thresholds` dict, which raises `KeyError` for a name that is
not a key — modelled by `.error`. -/
def evaluate_risk_level (metric_name : String) (value : Int) :
    Except String (String × String) :=
  if metric_name == "match_rate_percent" then
    if value < 70 then .ok ("High Risk", "<70")
    else if value ≤ 85 then .ok ("Medium Risk", "70–85")
    else .ok ("Low Risk", ">85")
  else
    match thresholds.find? (fun p => p.1 == metric_name) with
    | some p => .ok (scanThresholds value p.2)
    | none => .error ("KeyError: " ++ metric_name)

/-- `RiskEvaluation` from `src/app.py`.  The source declares `value` as a
`float`; the pipeline only ever stores parser-produced integers in it, so the
model keeps the exact `Int` and renders it through `floatRepr` wherever the
source displays the float. -/
structure RiskEvaluation where
  metric_name : String
  customer_id : String
  value : Int
  risk_level : String
  threshold_range : String
  explanation : String
deriving DecidableEq

/-- `CustomerRiskReport` from `src/app.py`. -/
structure CustomerRiskReport where
  customer_id : String
  risks : List RiskEvaluation
  high_risk_count : Nat
  medium_risk_count : Nat
  low_risk_count : Nat
deriving DecidableEq

/-- The `risk_descriptions` dict of `evaluate_risks`. -/
def risk_descriptions : List (String × String) :=
  [("negative_accum_count",
    "Ordering drugs while accumulations are negative may indicate inventory control weaknesses."),
   ("match_rate_percent",
    "Low match rates may indicate incomplete documentation or eligibility classification issues."),
   ("referral_capture_rate_percent",
    "Low referral capture may indicate operational inefficiencies or missed program opportunities.")]

/-- `risk_descriptions.get(metric_name, '')`. -/
def descriptionFor (metric_name : String) : String :=
  ((risk_descriptions.find? (fun p => p.1 == metric_name)).map (fun p => p.2)).getD ""

/-- The `RiskEvaluation(...)` constructor call inside the loop of
`evaluate_risks` (display name via `replace('_', ' ').title()`). -/
def makeEvaluation (customer_id metric_name : String) (value : Int)
    (rt : String × String) : RiskEvaluation :=
  { metric_name := pyTitle (pyUnderscoreToSpace metric_name)
    customer_id := customer_id
    value := value
    risk_level := rt.1
    threshold_range := rt.2
    explanation := descriptionFor metric_name }

/-- Inner loop of `evaluate_risks`: classify each metric of one customer in
insertion order; a raised `KeyError` propagates. -/
def evalCustomer (customer_id : String) :
    List (String × Int) → Except String (List RiskEvaluation)
  | [] => .ok []
  | (metric_name, value) :: rest =>
    match evaluate_risk_level metric_name value with
    | .error e => .error e
    | .ok rt =>
      match evalCustomer customer_id rest with
      | .error e => .error e
      | .ok es => .ok (makeEvaluation customer_id metric_name value rt :: es)

/-- Outer loop of `evaluate_risks`: append every customer's evaluations to one
flat list, customers in insertion order. -/
def evalAll : List (String × List (String × Int)) → Except String (List RiskEvaluation)
  | [] => .ok []
  | (customer_id, metrics_data) :: rest =>
    match evalCustomer customer_id metrics_data with
    | .error e => .error e
    | .ok es =>
      match evalAll rest with
      | .error e => .error e
      | .ok more => .ok (es ++ more)

/-- The report-building loop body of `evaluate_risks`: filter the flat
evaluation list down to one customer and tally the three tiers
(`sum(1 for e in customer_evals if e.risk_level == ...)`). -/
def makeReport (risk_evaluations : List RiskEvaluation) (customer_id : String) :
    CustomerRiskReport :=
  let customer_evals := risk_evaluations.filter (fun e => e.customer_id == customer_id)
  { customer_id := customer_id
    risks := customer_evals
    high_risk_count := customer_evals.countP (fun e => e.risk_level == "High Risk")
    medium_risk_count := customer_evals.countP (fun e => e.risk_level == "Medium Risk")
    low_risk_count := customer_evals.countP (fun e => e.risk_level == "Low Risk") }

/-- `evaluate_risks` from `src/app.py`: build the flat evaluation list, then
one `CustomerRiskReport` per customer key of the input mapping. -/
def evaluate_risks (customer_metrics : List (String × List (String × Int))) :
    Except String (List RiskEvaluation × List CustomerRiskReport) :=
  match evalAll customer_metrics with
  | .error e => .error e
  | .ok risk_evaluations =>
    .ok (risk_evaluations,
      customer_metrics.map (fun p => makeReport risk_evaluations p.1))

/-- Specification-side description of the evaluation order: customers in
insertion order, metrics within a customer in insertion order, dropping the
(never successful) classifications that raise. -/
def orderedEvaluations (customer_metrics : List (String × List (String × Int))) :
    List RiskEvaluation :=
  customer_metrics.flatMap (fun p =>
    p.2.filterMap (fun q =>
      (evaluate_risk_level q.1 q.2).toOption.map (makeEvaluation p.1 q.1 q.2)))

/-- The `regulatory_suggestions` dict of the final fallback inside
`duckduckgo_search`. -/
def regulatory_suggestions : List (String × String) :=
  [("340B program compliance",
    "Recent regulatory guidance emphasizes stronger controls on accumulation tracking and diversion prevention."),
   ("negative accumulation",
    "HRSA guidance recommends monitoring negative accumulation patterns as early indicators of inventory management issues."),
   ("match rate",
    "Patient eligibility documentation must be maintained with higher accuracy rates to ensure program integrity."),
   ("referral capture",
    "Covered entities should enhance referral capture processes to maximize program utilization and compliance.")]

/-- The `for key, value in regulatory_suggestions.items()` loop plus the
generic final return of `duckduckgo_search`. -/
def suggestionFor (query : String) : String :=
  match regulatory_suggestions.find?
      (fun p => containsSubstr (pyLower query) (pyLower p.1)) with
  | some p => p.2
  | none =>
    "Regulatory context: Continuous monitoring of compliance metrics is essential for 340B program integrity."

/-- `duckduckgo_search` from `src/app.py`, with its two external backends as
explicit outcomes: `searchRun` is the LangChain `search.run(query)` call and
`httpGet` the `requests.get` fallback returning a status code and body.  The
function itself never raises: every failure path returns canned text. -/
def duckduckgo_search (searchRun : Except String String)
    (httpGet : Except String (Nat × String)) (query : String) : String :=
  match searchRun with
  | .ok r => r
  | .error _ =>
    match httpGet with
    | .ok (status, text) =>
      if status == 200 then
        if containsSubstr text "340B" || containsSubstr (pyLower text) "compliance" then
          "DuckDuckGo results for \x27" ++ query ++
            "\x27: Found relevant 340B compliance information online.\nKey topics include: program management, diversion prevention, patient eligibility, and regulatory compliance."
        else
          "DuckDuckGo search for \x27" ++ query ++
            "\x27 completed. Regulatory updates and guidance available online."
      else
        "Search results for \x27" ++ query ++ "\x27 retrieved from regulatory databases."
    | .error _ => suggestionFor query

/-- The fixed query list of `search_regulatory_updates`. -/
def search_queries : List String :=
  ["340B program compliance risks 2025 2026",
   "healthcare diversion compliance negative accumulation",
   "patient eligibility matching audit requirements"]

/-- `search_regulatory_updates` from `src/app.py`, with the whole
`duckduckgo_search` call modelled as a per-query outcome `ddg`: an `.ok`
result is labelled with its query, a raised exception is caught and replaced
by the `Search failed:` placeholder; the labelled blocks are joined by
newlines. -/
def search_regulatory_updates (ddg : String → Except String String) : String :=
  pyJoin "\n" (search_queries.map (fun query =>
    match ddg query with
    | .ok results => "Query: " ++ query ++ "\n" ++ results ++ "\n"
    | .error e => "Query: " ++ query ++ "\nSearch failed: " ++ e ++ "\n"))

/-- The search stage when both backends of every `duckduckgo_search` call
raise (the search collaborator is fully unavailable): the inner fallback
chain still returns canned text for every query. -/
def allFailSearch (runErr getErr : String → String) : String :=
  search_regulatory_updates (fun q =>
    .ok (duckduckgo_search (.error (runErr q)) (.error (getErr q)) q))

/-- Lowercase hexadecimal digit, as used by Python `json`'s escapes. -/
def hexDigit (n : Nat) : Char :=
  if n < 10 then Char.ofNat (48 + n) else Char.ofNat (87 + n)

/-- Four lowercase hex digits. -/
def hex4 (n : Nat) : String :=
  String.mk [hexDigit (n / 4096 % 16), hexDigit (n / 256 % 16),
             hexDigit (n / 16 % 16), hexDigit (n % 16)]

/-- Python `json.dumps` escaping of one character with the default
`ensure_ascii=True`: quote, backslash and the five short control escapes,
`\u00xx` for the other control characters, characters outside the printable
ASCII range as `\uxxxx` (surrogate pairs beyond the BMP). -/
def jsonEscapeChar (c : Char) : String :=
  if c = '"' then "\\\""
  else if c = '\\' then "\\\\"
  else if c = '\n' then "\\n"
  else if c = '\r' then "\\r"
  else if c = '\t' then "\\t"
  else if c = '\x08' then "\\b"
  else if c = '\x0c' then "\\f"
  else if 32 ≤ c.toNat && c.toNat ≤ 126 then String.mk [c]
  else if c.toNat ≤ 65535 then "\\u" ++ hex4 c.toNat
  else
    let v := c.toNat - 65536
    "\\u" ++ hex4 (55296 + v / 1024) ++ "\\u" ++ hex4 (56320 + v % 1024)

/-- Python `json.dumps` of one string value. -/
def jsonStr (s : String) : String :=
  "\"" ++ String.join (s.data.map jsonEscapeChar) ++ "\""

/-- `json.dumps(risk.model_dump(), indent=2)` layout of one `RiskEvaluation`
inside the report list (nesting depth 3), fields in declaration order; the
float `value` renders as `floatRepr`. -/
def jsonRisk (e : RiskEvaluation) : String :=
  "      \x7b\n        \"metric_name\": " ++ jsonStr e.metric_name ++
  ",\n        \"customer_id\": " ++ jsonStr e.customer_id ++
  ",\n        \"value\": " ++ floatRepr e.value ++
  ",\n        \"risk_level\": " ++ jsonStr e.risk_level ++
  ",\n        \"threshold_range\": " ++ jsonStr e.threshold_range ++
  ",\n        \"explanation\": " ++ jsonStr e.explanation ++
  "\n      \x7d"

/-- `json.dumps(report.model_dump(), indent=2)` layout of one
`CustomerRiskReport` (nesting depth 1), fields in declaration order. -/
def jsonReport (r : CustomerRiskReport) : String :=
  "  \x7b\n    \"customer_id\": " ++ jsonStr r.customer_id ++
  ",\n    \"risks\": " ++
  (if r.risks.isEmpty then "[]"
   else "[\n" ++ pyJoin ",\n" (r.risks.map jsonRisk) ++ "\n    ]") ++
  ",\n    \"high_risk_count\": " ++ toString r.high_risk_count ++
  ",\n    \"medium_risk_count\": " ++ toString r.medium_risk_count ++
  ",\n    \"low_risk_count\": " ++ toString r.low_risk_count ++
  "\n  \x7d"

/-- `json.dumps([r.model_dump() for r in customer_reports], indent=2)`. -/
def jsonDumpsReports (customer_reports : List CustomerRiskReport) : String :=
  if customer_reports.isEmpty then "[]"
  else "[\n" ++ pyJoin ",\n" (customer_reports.map jsonReport) ++ "\n]"

/-- `regulatory_updates[:500]`: the prefix length of the regulatory context
embedded in the summarization prompt. -/
def promptCap : Nat := 500

/-- `regulatory_updates[:1000]`: the prefix length of the regulatory context
quoted in the report's appendix. -/
def appendixCap : Nat := 1000

/-- The `summary_prompt` f-string of `generate_report`. -/
def summary_prompt (knowledge_base : String)
    (customer_reports : List CustomerRiskReport) (regulatory_updates : String) : String :=
  "Based on the following compliance analysis, generate a brief executive summary:\n\nKnowledge Base:\n"
  ++ knowledge_base
  ++ "\n\nHigh-Risk Customers: "
  ++ toString (customer_reports.filter (fun r => r.high_risk_count > 0)).length
  ++ "\n\nDetails:\n"
  ++ jsonDumpsReports customer_reports
  ++ "\n\nRecent Regulatory Context:\n"
  ++ pyTake regulatory_updates promptCap
  ++ "...\n\nProvide a 2-3 sentence summary highlighting the most critical risks detected."

/-- Everything of the summarization prompt before the truncated regulatory
context. -/
def promptHead (knowledge_base : String)
    (customer_reports : List CustomerRiskReport) : String :=
  "Based on the following compliance analysis, generate a brief executive summary:\n\nKnowledge Base:\n"
  ++ knowledge_base
  ++ "\n\nHigh-Risk Customers: "
  ++ toString (customer_reports.filter (fun r => r.high_risk_count > 0)).length
  ++ "\n\nDetails:\n"
  ++ jsonDumpsReports customer_reports
  ++ "\n\nRecent Regulatory Context:\n"

/-- Everything of the summarization prompt after the truncated regulatory
context. -/
def promptTail : String :=
  "...\n\nProvide a 2-3 sentence summary highlighting the most critical risks detected."

/-- The `try: model.invoke ... except:` block of `generate_report`, with the
narrative summarizer as an explicit collaborator `fInvoke`. -/
def summaryOf (fInvoke : String → Except String String) (knowledge_base : String)
    (customer_reports : List CustomerRiskReport) (regulatory_updates : String) : String :=
  match fInvoke (summary_prompt knowledge_base customer_reports regulatory_updates) with
  | .ok content => content
  | .error e => "Error generating summary: " ++ e

/-- The five report lines appended for one evaluation inside the customer
loop of `generate_report`. -/
def riskLines (risk : RiskEvaluation) : List String :=
  ["\n  • " ++ risk.metric_name,
   "    Value: " ++ floatRepr risk.value,
   "    Risk Level: " ++ risk.risk_level,
   "    Threshold: " ++ risk.threshold_range,
   "    Description: " ++ risk.explanation]

/-- The four rollup lines appended for one customer in `generate_report`. -/
def customerHeadLines (r : CustomerRiskReport) : List String :=
  ["\nCustomer: " ++ r.customer_id,
   "  High Risk Issues: " ++ toString r.high_risk_count,
   "  Medium Risk Issues: " ++ toString r.medium_risk_count,
   "  Low Risk Issues: " ++ toString r.low_risk_count]

/-- One whole customer block: rollup lines followed by every evaluation's
lines. -/
def customerBlock (r : CustomerRiskReport) : List String :=
  customerHeadLines r ++ r.risks.flatMap riskLines

/-- The fixed lines above the customer blocks: title banner and executive
summary section. -/
def reportHeaderLines (summary : String) : List String :=
  [repChar '=' 80,
   "340B PROGRAM COMPLIANCE RISK DETECTION REPORT",
   repChar '=' 80,
   "",
   "EXECUTIVE SUMMARY",
   repChar '-' 80,
   summary,
   "",
   "CUSTOMER RISK ANALYSIS",
   repChar '-' 80]

/-- The fixed lines below the customer blocks: regulatory appendix (context
truncated to `appendixCap` characters) and generation-timestamp footer. -/
def reportTailLines (regulatory_updates date_output : String) : List String :=
  ["",
   repChar '=' 80,
   "REGULATORY CONTEXT",
   repChar '=' 80,
   pyTake regulatory_updates appendixCap,
   "",
   "Report Generated: " ++ pyStrip date_output,
   repChar '=' 80]

/-- `generate_report` from `src/app.py`, as the list `report_lines` it
accumulates: the initial literal list, the append-per-customer and
append-per-risk loops, then the appendix and footer appends.  `fInvoke`
models `model.invoke` (raising represented by `.error`), `date_output`
models `os.popen('date -u').read()`. -/
def generate_report_lines (fInvoke : String → Except String String)
    (knowledge_base : String) (customer_reports : List CustomerRiskReport)
    (regulatory_updates date_output : String) : List String :=
  let summary := summaryOf fInvoke knowledge_base customer_reports regulatory_updates
  let report_lines :=
    [repChar '=' 80,
     "340B PROGRAM COMPLIANCE RISK DETECTION REPORT",
     repChar '=' 80,
     "",
     "EXECUTIVE SUMMARY",
     repChar '-' 80,
     summary,
     "",
     "CUSTOMER RISK ANALYSIS",
     repChar '-' 80]
  let report_lines := customer_reports.foldl (fun acc r =>
    r.risks.foldl (fun acc2 risk => acc2 ++ riskLines risk)
      (acc ++ customerHeadLines r)) report_lines
  report_lines ++
    ["",
     repChar '=' 80,
     "REGULATORY CONTEXT",
     repChar '=' 80,
     pyTake regulatory_updates appendixCap,
     "",
     "Report Generated: " ++ pyStrip date_output,
     repChar '=' 80]

/-- The final report text: `"\n".join(report_lines)`. -/
def generate_report (fInvoke : String → Except String String)
    (knowledge_base : String) (customer_reports : List CustomerRiskReport)
    (regulatory_updates date_output : String) : String :=
  pyJoin "\n"
    (generate_report_lines fInvoke knowledge_base customer_reports
      regulatory_updates date_output)

/-! ### Lemmas about the insertion-ordered dictionary model -/

theorem dictInsert_map_fst (m : List (String × α)) (k : String) (v : α) :
    (dictInsert m k v).map Prod.fst =
      if m.any (fun p => p.1 == k) then m.map Prod.fst
      else m.map Prod.fst ++ [k] := by
  unfold dictInsert
  split
  · simp only [List.map_map]
    apply List.map_congr_left
    intro p _
    by_cases hp : p.1 = k <;> simp [hp]
  · simp

theorem dictInsert_nodup_keys {m : List (String × α)} {k : String} {v : α}
    (h : (m.map Prod.fst).Nodup) : ((dictInsert m k v).map Prod.fst).Nodup := by
  rw [dictInsert_map_fst]
  split
  · exact h
  · next hany =>
    have hk : k ∉ m.map Prod.fst := by
      intro hmem
      apply hany
      rcases List.mem_map.mp hmem with ⟨p, hp, hpk⟩
      exact List.any_eq_true.mpr ⟨p, hp, by simp [hpk]⟩
    rw [List.nodup_append]
    exact ⟨h, List.nodup_singleton k, by simp [List.disjoint_right, hk]⟩

theorem pyLookup_cons_eq {p : String × α} {l : List (String × α)} {k : String}
    (h : p.1 = k) : pyLookup (p :: l) k = some p.2 := by
  simp [pyLookup, List.find?_cons, h]

theorem pyLookup_cons_ne {p : String × α} {l : List (String × α)} {k : String}
    (h : p.1 ≠ k) : pyLookup (p :: l) k = pyLookup l k := by
  simp [pyLookup, List.find?_cons, beq_eq_false_iff_ne.mpr h]

theorem pyLookup_map_replace_ne (rest : List (String × α)) (k : String) (v : α)
    (k' : String) (h : k ≠ k') :
    pyLookup (rest.map (fun q => if q.1 == k then (k, v) else q)) k' =
      pyLookup rest k' := by
  induction rest with
  | nil => rfl
  | cons q qs ihq =>
    rw [List.map_cons]
    by_cases hq : q.1 = k
    · rw [if_pos (by simp [hq])]
      rw [pyLookup_cons_ne h, pyLookup_cons_ne (by rw [hq]; exact h), ihq]
    · rw [if_neg (by simp [hq])]
      by_cases hq' : q.1 = k'
      · rw [pyLookup_cons_eq hq', pyLookup_cons_eq hq']
      · rw [pyLookup_cons_ne hq', pyLookup_cons_ne hq', ihq]

theorem pyLookup_dictInsert_self (m : List (String × α)) (k : String) (v : α) :
    pyLookup (dictInsert m k v) k = some v := by
  induction m with
  | nil => simp [dictInsert, pyLookup]
  | cons p rest ih =>
    by_cases hp : p.1 = k
    · have hany : (p :: rest).any (fun q => q.1 == k) = true := by simp [hp]
      simp only [dictInsert, hany, if_true, List.map_cons]
      rw [if_pos (by simp [hp])]
      exact pyLookup_cons_eq rfl
    · cases hr : rest.any (fun q => q.1 == k) with
      | true =>
        have hany : (p :: rest).any (fun q => q.1 == k) = true := by
          simp [List.any_cons, hr]
        have hrest : dictInsert rest k v =
            rest.map (fun q => if q.1 == k then (k, v) else q) := by
          simp [dictInsert, hr]
        simp only [dictInsert, hany, if_true, List.map_cons]
        rw [if_neg (by simp [hp]), pyLookup_cons_ne hp, ← hrest]
        exact ih
      | false =>
        have hany : (p :: rest).any (fun q => q.1 == k) = false := by
          simp only [List.any_cons, hr, Bool.or_false]
          simp [hp]
        have hrest : dictInsert rest k v = rest ++ [(k, v)] := by
          simp [dictInsert, hr]
        simp only [dictInsert, hany, Bool.false_eq_true, if_false, List.cons_append]
        rw [pyLookup_cons_ne hp, ← hrest]
        exact ih

theorem pyLookup_dictInsert_ne (m : List (String × α)) (k : String) (v : α)
    (k' : String) (h : k ≠ k') :
    pyLookup (dictInsert m k v) k' = pyLookup m k' := by
  induction m with
  | nil => simp [dictInsert, pyLookup, beq_eq_false_iff_ne.mpr h]
  | cons p rest ih =>
    by_cases hp : p.1 = k
    · have hany : (p :: rest).any (fun q => q.1 == k) = true := by simp [hp]
      simp only [dictInsert, hany, if_true, List.map_cons]
      rw [if_pos (by simp [hp])]
      rw [pyLookup_cons_ne h, pyLookup_cons_ne (by rw [hp]; exact h)]
      exact pyLookup_map_replace_ne rest k v k' h
    · cases hr : rest.any (fun q => q.1 == k) with
      | true =>
        have hany : (p :: rest).any (fun q => q.1 == k) = true := by
          simp [List.any_cons, hr]
        have hrest : dictInsert rest k v =
            rest.map (fun q => if q.1 == k then (k, v) else q) := by
          simp [dictInsert, hr]
        simp only [dictInsert, hany, if_true, List.map_cons]
        rw [if_neg (by simp [hp])]
        by_cases hp' : p.1 = k'
        · rw [pyLookup_cons_eq hp', pyLookup_cons_eq hp']
        · rw [pyLookup_cons_ne hp', pyLookup_cons_ne hp', ← hrest]
          exact ih
      | false =>
        have hany : (p :: rest).any (fun q => q.1 == k) = false := by
          simp only [List.any_cons, hr, Bool.or_false]
          simp [hp]
        have hrest : dictInsert rest k v = rest ++ [(k, v)] := by
          simp [dictInsert, hr]
        simp only [dictInsert, hany, Bool.false_eq_true, if_false, List.cons_append]
        by_cases hp' : p.1 = k'
        · rw [pyLookup_cons_eq hp', pyLookup_cons_eq hp']
        · rw [pyLookup_cons_ne hp', pyLookup_cons_ne hp', ← hrest]
          exact ih

theorem pyLookup_foldl_dictInsert (ps : List (String × α)) (init : List (String × α))
    (k : String) :
    pyLookup (ps.foldl (fun m p => dictInsert m p.1 p.2) init) k =
      match ps.reverse.find? (fun p => p.1 == k) with
      | some p => some p.2
      | none => pyLookup init k := by
  induction ps generalizing init with
  | nil => simp
  | cons p rest ih =>
    rw [List.foldl_cons, ih, List.reverse_cons, List.find?_append]
    cases hfind : rest.reverse.find? (fun q => q.1 == k) with
    | some q => simp
    | none =>
      simp only [Option.none_or]
      by_cases hp : p.1 = k
      · rw [List.find?_cons, List.find?_nil]
        simp only [hp, beq_self_eq_true]
        exact hp ▸ pyLookup_dictInsert_self init p.1 p.2
      · rw [List.find?_cons, List.find?_nil]
        simp only [beq_eq_false_iff_ne.mpr hp]
        exact pyLookup_dictInsert_ne init p.1 p.2 k hp

theorem foldl_dictInsert_nodup (ps : List (String × α)) (init : List (String × α))
    (h : (init.map Prod.fst).Nodup) :
    ((ps.foldl (fun m p => dictInsert m p.1 p.2) init).map Prod.fst).Nodup := by
  induction ps generalizing init with
  | nil => exact h
  | cons p rest ih => exact ih _ (dictInsert_nodup_keys h)

/-! ### Lemmas about the parsing loop -/

theorem find?_eq_head?_filter (p : α → Bool) (l : List α) :
    l.find? p = (l.filter p).head? := by
  induction l with
  | nil => rfl
  | cons a rest ih =>
    cases ha : p a with
    | true =>
      simp [List.find?_cons, List.filter_cons, ha, List.head?_cons]
    | false =>
      simp only [List.find?_cons, List.filter_cons, ha, Bool.false_eq_true, if_false]
      exact ih

theorem foldl_parse_step (lines : List String)
    (init : List (String × List (String × Int))) :
    lines.foldl (fun metrics line =>
      match parseLine line with
      | some (cid, rec) => dictInsert metrics cid rec
      | none => metrics) init =
    (lines.filterMap parseLine).foldl (fun m p => dictInsert m p.1 p.2) init := by
  induction lines generalizing init with
  | nil => rfl
  | cons l rest ih =>
    cases hl : parseLine l with
    | none =>
      simp only [List.foldl_cons, List.filterMap_cons_none hl, hl]
      exact ih _
    | some pr =>
      obtain ⟨cid, rec⟩ := pr
      simp only [List.foldl_cons, List.filterMap_cons_some hl, hl]
      exact ih _

theorem parse_eq_foldl (raw : String) :
    parse_csv_metrics raw =
      (contributions raw).foldl (fun m p => dictInsert m p.1 p.2) [] :=
  foldl_parse_step _ _

theorem parse_nodup_keys (raw : String) :
    ((parse_csv_metrics raw).map Prod.fst).Nodup := by
  rw [parse_eq_foldl]
  exact foldl_dictInsert_nodup _ _ (by simp)

theorem parse_pyLookup (raw : String) (k : String) :
    pyLookup (parse_csv_metrics raw) k =
      ((contributions raw).reverse.find? (fun p => p.1 == k)).map (fun p => p.2) := by
  rw [parse_eq_foldl, pyLookup_foldl_dictInsert]
  cases (contributions raw).reverse.find? (fun p => p.1 == k) <;> simp [pyLookup]

theorem parseLine_accepts (line f0 f1 f2 f3 : String) (rest : List String)
    (a b c : Int)
    (h1 : pyStrip line ≠ "") (h2 : pyStartsWith (pyStrip line) "customer_id" = false)
    (hs : pySplit (pyStrip line) "," = f0 :: f1 :: f2 :: f3 :: rest)
    (ha : pyInt (pyStrip f1) = some a) (hb : pyInt (pyStrip f2) = some b)
    (hc : pyInt (pyStrip f3) = some c) :
    parseLine line = some (pyStrip f0,
      [("negative_accum_count", a), ("match_rate_percent", b),
       ("referral_capture_rate_percent", c)]) := by
  simp only [parseLine, hs, ha, hb, hc]
  rw [if_neg (by simp [h1, h2])]

theorem parseLine_rejects_short (line : String)
    (h : (pySplit (pyStrip line) ",").length < 4) : parseLine line = none := by
  simp only [parseLine]
  split
  · rfl
  · split
    · next hs =>
      exfalso
      rw [hs] at h
      simp at h
      omega
    · rfl

theorem parseLine_rejects_nonint (line f0 f1 f2 f3 : String) (rest : List String)
    (hs : pySplit (pyStrip line) "," = f0 :: f1 :: f2 :: f3 :: rest)
    (h : pyInt (pyStrip f1) = none ∨ pyInt (pyStrip f2) = none ∨ pyInt (pyStrip f3) = none) :
    parseLine line = none := by
  simp only [parseLine, hs]
  split
  · rfl
  · cases ha : pyInt (pyStrip f1) <;> cases hb : pyInt (pyStrip f2) <;>
      cases hc : pyInt (pyStrip f3) <;> simp_all

/-! ### Lemmas about the risk classifier and aggregator -/

theorem evaluate_risk_level_levels (metric_name : String) (value : Int)
    (rt : String × String) (h : evaluate_risk_level metric_name value = .ok rt) :
    rt.1 = "High Risk" ∨ rt.1 = "Medium Risk" ∨ rt.1 = "Low Risk" := by
  unfold evaluate_risk_level at h
  split at h
  · split at h
    · simp only [Except.ok.injEq] at h
      subst h
      exact Or.inl rfl
    · split at h
      · simp only [Except.ok.injEq] at h
        subst h
        exact Or.inr (Or.inl rfl)
      · simp only [Except.ok.injEq] at h
        subst h
        exact Or.inr (Or.inr rfl)
  · split at h
    · next p hf =>
      simp only [Except.ok.injEq] at h
      subst h
      have hp := List.mem_of_find?_eq_some hf
      simp only [thresholds, List.mem_cons, List.not_mem_nil, or_false] at hp
      rcases hp with rfl | rfl | rfl <;>
        · simp only [scanThresholds, leThreshold]
          split
          · simp
          · split
            · simp
            · simp [scanThresholds, leThreshold]
    · exact absurd h (by simp)

theorem evalCustomer_ok :
    ∀ (cid : String) (md : List (String × Int)) (es : List RiskEvaluation),
      evalCustomer cid md = .ok es →
      es.length = md.length ∧ ∀ e ∈ es, e.customer_id = cid ∧
        (e.risk_level = "High Risk" ∨ e.risk_level = "Medium Risk" ∨
          e.risk_level = "Low Risk") := by
  intro cid md
  induction md with
  | nil =>
    intro es h
    simp only [evalCustomer, Except.ok.injEq] at h
    subst h
    simp
  | cons q rest ih =>
    intro es h
    obtain ⟨n, v⟩ := q
    simp only [evalCustomer] at h
    cases hrl : evaluate_risk_level n v with
    | error e => simp [hrl] at h
    | ok rt =>
      simp only [hrl] at h
      cases hec : evalCustomer cid rest with
      | error e => simp [hec] at h
      | ok es' =>
        simp only [hec, Except.ok.injEq] at h
        subst h
        obtain ⟨hlen, hall⟩ := ih es' hec
        refine ⟨by simp [hlen], ?_⟩
        intro e he
        rcases List.mem_cons.mp he with rfl | he'
        · exact ⟨rfl, evaluate_risk_level_levels n v rt hrl⟩
        · exact hall e he'

theorem evalAll_mem_keys :
    ∀ (ms : List (String × List (String × Int))) (evals : List RiskEvaluation),
      evalAll ms = .ok evals →
      ∀ e ∈ evals, e.customer_id ∈ ms.map Prod.fst := by
  intro ms
  induction ms with
  | nil =>
    intro evals h
    simp only [evalAll, Except.ok.injEq] at h
    subst h
    simp
  | cons p rest ih =>
    intro evals h
    obtain ⟨cid, md⟩ := p
    simp only [evalAll] at h
    cases hc : evalCustomer cid md with
    | error e => simp [hc] at h
    | ok es =>
      simp only [hc] at h
      cases hr : evalAll rest with
      | error e => simp [hr] at h
      | ok more =>
        simp only [hr, Except.ok.injEq] at h
        subst h
        intro e he
        rcases List.mem_append.mp he with h1 | h2
        · have := ((evalCustomer_ok cid md es hc).2 e h1).1
          simp [this]
        · simp only [List.map_cons, List.mem_cons]
          exact Or.inr (ih more hr e h2)

theorem evalAll_filter :
    ∀ (ms : List (String × List (String × Int))) (evals : List RiskEvaluation),
      evalAll ms = .ok evals → (ms.map Prod.fst).Nodup →
      ∀ (cid : String) (md : List (String × Int)), (cid, md) ∈ ms →
      ∃ es, evalCustomer cid md = .ok es ∧
        evals.filter (fun e => e.customer_id == cid) = es := by
  intro ms
  induction ms with
  | nil =>
    intro evals h hnd cid md hmem
    simp at hmem
  | cons p rest ih =>
    intro evals h hnd cid md hmem
    obtain ⟨cid', md'⟩ := p
    simp only [evalAll] at h
    cases hc : evalCustomer cid' md' with
    | error e => simp [hc] at h
    | ok es' =>
      simp only [hc] at h
      cases hr : evalAll rest with
      | error e => simp [hr] at h
      | ok more =>
        simp only [hr, Except.ok.injEq] at h
        subst h
        simp only [List.map_cons, List.nodup_cons] at hnd
        obtain ⟨hnotin, hnd'⟩ := hnd
        rcases List.mem_cons.mp hmem with heq | hmem'
        · injection heq with h1 h2
          subst h1
          subst h2
          refine ⟨es', hc, ?_⟩
          rw [List.filter_append]
          have hes : es'.filter (fun e => e.customer_id == cid) = es' :=
            List.filter_eq_self.mpr (fun e he => by
              simp [((evalCustomer_ok cid md es' hc).2 e he).1])
          have hmore : more.filter (fun e => e.customer_id == cid) = [] :=
            List.filter_eq_nil_iff.mpr (fun e he => by
              have hk := evalAll_mem_keys rest more hr e he
              have : e.customer_id ≠ cid := fun hcc => hnotin (hcc ▸ hk)
              simp [this])
          rw [hes, hmore, List.append_nil]
        · have hcidmem : cid ∈ rest.map Prod.fst :=
            List.mem_map_of_mem Prod.fst hmem'
          have hne : cid' ≠ cid := fun hcc => hnotin (hcc ▸ hcidmem)
          obtain ⟨es, hes, hfil⟩ := ih more hr hnd' cid md hmem'
          refine ⟨es, hes, ?_⟩
          rw [List.filter_append]
          have hz : es'.filter (fun e => e.customer_id == cid) = [] :=
            List.filter_eq_nil_iff.mpr (fun e he => by
              have h1 := ((evalCustomer_ok cid' md' es' hc).2 e he).1
              simp [h1, hne])
          rw [hz, List.nil_append, hfil]

theorem countP_three (l : List RiskEvaluation)
    (h : ∀ e ∈ l, e.risk_level = "High Risk" ∨ e.risk_level = "Medium Risk" ∨
      e.risk_level = "Low Risk") :
    l.countP (fun e => e.risk_level == "High Risk") +
      l.countP (fun e => e.risk_level == "Medium Risk") +
      l.countP (fun e => e.risk_level == "Low Risk") = l.length := by
  induction l with
  | nil => simp
  | cons e rest ih =>
    have he := h e (List.mem_cons_self e rest)
    have hrest := ih (fun e' he' => h e' (List.mem_cons_of_mem _ he'))
    rcases he with hx | hx | hx <;>
      · simp only [List.countP_cons, hx, List.length_cons]
        simp
        omega

theorem evalCustomer_filterMap :
    ∀ (cid : String) (md : List (String × Int)) (es : List RiskEvaluation),
      evalCustomer cid md = .ok es →
      es = md.filterMap (fun q =>
        (evaluate_risk_level q.1 q.2).toOption.map (makeEvaluation cid q.1 q.2)) := by
  intro cid md
  induction md with
  | nil =>
    intro es h
    simp only [evalCustomer, Except.ok.injEq] at h
    subst h
    simp
  | cons q rest ih =>
    intro es h
    obtain ⟨n, v⟩ := q
    simp only [evalCustomer] at h
    cases hrl : evaluate_risk_level n v with
    | error e => simp [hrl] at h
    | ok rt =>
      simp only [hrl] at h
      cases hec : evalCustomer cid rest with
      | error e => simp [hec] at h
      | ok es' =>
        simp only [hec, Except.ok.injEq] at h
        subst h
        simp [List.filterMap_cons, hrl, Except.toOption, ih es' hec]

theorem evalAll_ordered :
    ∀ (ms : List (String × List (String × Int))) (evals : List RiskEvaluation),
      evalAll ms = .ok evals → evals = orderedEvaluations ms := by
  intro ms
  induction ms with
  | nil =>
    intro evals h
    simp only [evalAll, Except.ok.injEq] at h
    subst h
    simp [orderedEvaluations]
  | cons p rest ih =>
    intro evals h
    obtain ⟨cid, md⟩ := p
    simp only [evalAll] at h
    cases hc : evalCustomer cid md with
    | error e => simp [hc] at h
    | ok es =>
      simp only [hc] at h
      cases hr : evalAll rest with
      | error e => simp [hr] at h
      | ok more =>
        simp only [hr, Except.ok.injEq] at h
        subst h
        simp [orderedEvaluations, List.flatMap_cons,
          evalCustomer_filterMap cid md es hc, ih more hr]

/-! ### Lemmas about the report synthesizer -/

theorem foldl_append_flatMap (l : List α) (f : α → List β) (init : List β) :
    l.foldl (fun acc x => acc ++ f x) init = init ++ l.flatMap f := by
  induction l generalizing init with
  | nil => simp
  | cons a rest ih =>
    simp [List.foldl_cons, ih, List.flatMap_cons, List.append_assoc]

theorem report_fold_eq (reports : List CustomerRiskReport) (init : List String) :
    reports.foldl (fun acc r =>
      r.risks.foldl (fun acc2 risk => acc2 ++ riskLines risk)
        (acc ++ customerHeadLines r)) init
      = init ++ reports.flatMap customerBlock := by
  induction reports generalizing init with
  | nil => simp
  | cons r rest ih =>
    rw [List.foldl_cons, ih, foldl_append_flatMap]
    simp [customerBlock, List.flatMap_cons, List.append_assoc]

theorem generate_report_lines_eq (fInvoke : String → Except String String)
    (kb : String) (reports : List CustomerRiskReport) (reg d : String) :
    generate_report_lines fInvoke kb reports reg d =
      reportHeaderLines (summaryOf fInvoke kb reports reg)
        ++ reports.flatMap customerBlock
        ++ reportTailLines reg d := by
  simp only [generate_report_lines, reportHeaderLines, reportTailLines]
  rw [report_fold_eq]

theorem summary_prompt_split (kb : String) (reports : List CustomerRiskReport)
    (reg : String) :
    summary_prompt kb reports reg =
      promptHead kb reports ++ pyTake reg promptCap ++ promptTail := rfl

theorem pyJoin_foldl_length (s : String) :
    ∀ (l : List String) (acc : String),
      acc.length ≤ (l.foldl (fun a x => a ++ s ++ x) acc).length := by
  intro l
  induction l with
  | nil => intro acc; exact Nat.le_refl _
  | cons a as ih =>
    intro acc
    calc acc.length ≤ (acc ++ s ++ a).length := by
          simp only [String.length_append]
          omega
      _ ≤ _ := ih (acc ++ s ++ a)

theorem generate_report_length (fInvoke : String → Except String String)
    (kb : String) (reports : List CustomerRiskReport) (reg d : String) :
    80 ≤ (generate_report fInvoke kb reports reg d).length := by
  unfold generate_report
  rw [generate_report_lines_eq]
  have hcons : reportHeaderLines (summaryOf fInvoke kb reports reg)
        ++ reports.flatMap customerBlock ++ reportTailLines reg d =
      repChar '=' 80 ::
        (["340B PROGRAM COMPLIANCE RISK DETECTION REPORT", repChar '=' 80, "",
          "EXECUTIVE SUMMARY", repChar '-' 80, summaryOf fInvoke kb reports reg,
          "", "CUSTOMER RISK ANALYSIS", repChar '-' 80]
          ++ reports.flatMap customerBlock ++ reportTailLines reg d) := rfl
  rw [hcons]
  simp only [pyJoin]
  have h80 : (repChar '=' 80).length = 80 := by
    rw [repChar, String.length_mk, List.length_replicate]
  calc (80 : Nat) = (repChar '=' 80).length := h80.symm
    _ ≤ _ := pyJoin_foldl_length "\n" _ _

theorem generate_report_ne_empty (fInvoke : String → Except String String)
    (kb : String) (reports : List CustomerRiskReport) (reg d : String) :
    generate_report fInvoke kb reports reg d ≠ "" := by
  intro hempty
  have := generate_report_length fInvoke kb reports reg d
  rw [hempty] at this
  simp at this

/-! ### Sample pipeline input used by the witnesses -/

/-- The end-to-end sample of the spec: one customer with the three metrics
3 / 90 / 55. -/
def sampleMetrics : List (String × List (String × Int)) :=
  [("C1", [("negative_accum_count", 3), ("match_rate_percent", 90),
           ("referral_capture_rate_percent", 55)])]

/-- The evaluations the aggregator produces on `sampleMetrics`. -/
def sampleEvals : List RiskEvaluation :=
  [{ metric_name := "Negative Accum Count", customer_id := "C1", value := 3,
     risk_level := "Low Risk", threshold_range := "0–5",
     explanation := "Ordering drugs while accumulations are negative may indicate inventory control weaknesses." },
   { metric_name := "Match Rate Percent", customer_id := "C1", value := 90,
     risk_level := "Low Risk", threshold_range := ">85",
     explanation := "Low match rates may indicate incomplete documentation or eligibility classification issues." },
   { metric_name := "Referral Capture Rate Percent", customer_id := "C1", value := 55,
     risk_level := "Medium Risk", threshold_range := "40–60",
     explanation := "Low referral capture may indicate operational inefficiencies or missed program opportunities." }]

/-- The customer report the aggregator produces on `sampleMetrics`. -/
def sampleReport : CustomerRiskReport :=
  { customer_id := "C1", risks := sampleEvals,
    high_risk_count := 0, medium_risk_count := 1, low_risk_count := 2 }

/-! ### The claims -/

/-- Claim C1: the spec states that classifying
`referral_capture_rate_percent` at the boundary value 40 yields the Medium
tier with range "40–60" (boundary values belong to the lower-severity tier),
while 39 yields High and 61 yields Low.  The code's first threshold test for
this metric is `value <= 40`, so the boundary value 40 lands in the High tier
labelled "<40" — a label that itself excludes 40 — while 39 and 61 behave as
the spec states. -/
theorem c1_referral_boundary_bug :
    evaluate_risk_level "referral_capture_rate_percent" 40 = .ok ("High Risk", "<40")
    ∧ evaluate_risk_level "referral_capture_rate_percent" 39 = .ok ("High Risk", "<40")
    ∧ evaluate_risk_level "referral_capture_rate_percent" 61 = .ok ("Low Risk", ">60") :=
  ⟨rfl, rfl, rfl⟩

/-- Claim C2: the spec says an unrecognized metric name yields the sentinel
pair ("Unknown", "Unknown") and classification never fails.  In the code the
subscript `thresholds[metric_name]` raises `KeyError` for every name outside
the three known ones, for every value; the `('Unknown', 'Unknown')` return is
unreachable. -/
theorem c2_unknown_metric_raises (metric_name : String) (value : Int)
    (h1 : metric_name ≠ "negative_accum_count")
    (h2 : metric_name ≠ "match_rate_percent")
    (h3 : metric_name ≠ "referral_capture_rate_percent") :
    evaluate_risk_level metric_name value = .error ("KeyError: " ++ metric_name) := by
  unfold evaluate_risk_level
  rw [if_neg (by simp [h2])]
  have hnone : thresholds.find? (fun p => p.1 == metric_name) = none := by
    apply List.find?_eq_none.mpr
    intro x hx
    simp only [thresholds, List.mem_cons, List.not_mem_nil, or_false] at hx
    rcases hx with rfl | rfl | rfl <;> simp [Ne.symm h1, Ne.symm h2, Ne.symm h3]
  rw [hnone]

/-- Witness for C2 at the concrete unknown name "unknown_metric" and
value 0. -/
theorem c2_witness :
    evaluate_risk_level "unknown_metric" 0 = .error ("KeyError: " ++ "unknown_metric") :=
  c2_unknown_metric_raises "unknown_metric" 0 (by decide) (by decide) (by decide)

/-- Claim C3: the documented boundary behaviour of the two other metrics:
negative_accum_count 5 → (Low, "0–5"), 6 → (Medium, "6–15"),
16 → (High, ">15"); match_rate_percent 70 → (Medium, "70–85"),
69 → (High, "<70"), 86 → (Low, ">85"). -/
theorem c3_classifier_boundaries :
    evaluate_risk_level "negative_accum_count" 5 = .ok ("Low Risk", "0–5")
    ∧ evaluate_risk_level "negative_accum_count" 6 = .ok ("Medium Risk", "6–15")
    ∧ evaluate_risk_level "negative_accum_count" 16 = .ok ("High Risk", ">15")
    ∧ evaluate_risk_level "match_rate_percent" 70 = .ok ("Medium Risk", "70–85")
    ∧ evaluate_risk_level "match_rate_percent" 69 = .ok ("High Risk", "<70")
    ∧ evaluate_risk_level "match_rate_percent" 86 = .ok ("Low Risk", ">85") :=
  ⟨rfl, rfl, rfl, rfl, rfl, rfl⟩

/-- Claim C4 counterexample: the data line "customer_idA,1,2,3" is
well-formed in the claim's sense — four comma fields, integer numeric fields,
and a first field "customer_idA" that is not the header token
"customer_id" — yet the parser returns the empty mapping, because the code
skips every line that merely starts with "customer_id" rather than testing
the first field for equality. -/
theorem c4_counterexample :
    parse_csv_metrics "customer_idA,1,2,3" = []
    ∧ (pySplit "customer_idA,1,2,3" ",").headD "" ≠ "customer_id"
    ∧ (pySplit "customer_idA,1,2,3" ",").length = 4
    ∧ pyInt "1" = some 1 ∧ pyInt "2" = some 2 ∧ pyInt "3" = some 3 := by
  exact ⟨rfl, by decide, rfl, rfl, rfl, rfl⟩

/-- Claim C4 (amended): for every input text, the parse is the fold of the
per-line accepted records through dict insertion, so a malformed line
contributes nothing and has no effect on other lines and parsing never
aborts; every data line whose stripped form is non-empty, does not START
with the header token "customer_id" (prefix test, not first-field equality),
and splits into at least 4 comma fields whose numeric fields parse as Python
integers yields exactly its (customer_id, three integers) record; a line with
fewer than 4 fields, or a non-integer numeric field, yields nothing; and a
customer id contributed by exactly one accepted line maps to exactly that
line's record. -/
theorem c4_parse_locality (raw : String) :
    parse_csv_metrics raw =
      (contributions raw).foldl (fun m p => dictInsert m p.1 p.2) []
    ∧ (∀ (line f0 f1 f2 f3 : String) (rest : List String) (a b c : Int),
        pyStrip line ≠ "" → pyStartsWith (pyStrip line) "customer_id" = false →
        pySplit (pyStrip line) "," = f0 :: f1 :: f2 :: f3 :: rest →
        pyInt (pyStrip f1) = some a → pyInt (pyStrip f2) = some b → pyInt (pyStrip f3) = some c →
        parseLine line = some (pyStrip f0,
          [("negative_accum_count", a), ("match_rate_percent", b),
           ("referral_capture_rate_percent", c)]))
    ∧ (∀ line : String, (pySplit (pyStrip line) ",").length < 4 → parseLine line = none)
    ∧ (∀ (line f0 f1 f2 f3 : String) (rest : List String),
        pySplit (pyStrip line) "," = f0 :: f1 :: f2 :: f3 :: rest →
        pyInt (pyStrip f1) = none ∨ pyInt (pyStrip f2) = none ∨ pyInt (pyStrip f3) = none →
        parseLine line = none)
    ∧ (∀ (cid : String) (rec : List (String × Int)),
        (cid, rec) ∈ contributions raw →
        ((contributions raw).filter (fun p => p.1 == cid)).length = 1 →
        pyLookup (parse_csv_metrics raw) cid = some rec) := by
  refine ⟨parse_eq_foldl raw, parseLine_accepts, parseLine_rejects_short,
    parseLine_rejects_nonint, ?_⟩
  intro cid rec hmem hlen
  rw [parse_pyLookup]
  have hself : (cid, rec) ∈ (contributions raw).filter (fun p => p.1 == cid) :=
    List.mem_filter.mpr ⟨hmem, by simp⟩
  obtain ⟨x, hx⟩ := List.length_eq_one.mp hlen
  rw [hx] at hself
  simp only [List.mem_singleton] at hself
  rw [find?_eq_head?_filter, List.filter_reverse, hx, ← hself]
  rfl

/-- Witness for C4 at a concrete input containing a header line, one
malformed line, and two well-formed lines with distinct customer ids. -/
theorem c4_witness :
    pyLookup
      (parse_csv_metrics "customer_id,a,b,c\nCUST-1,3,90,55\nskip\nCUST-2,7,60,30")
      "CUST-1" =
    some [("negative_accum_count", 3), ("match_rate_percent", 90),
          ("referral_capture_rate_percent", 55)] :=
  (c4_parse_locality "customer_id,a,b,c\nCUST-1,3,90,55\nskip\nCUST-2,7,60,30").2.2.2.2
    "CUST-1"
    [("negative_accum_count", 3), ("match_rate_percent", 90),
     ("referral_capture_rate_percent", 55)]
    (by decide) (by decide)

/-- Claim C10: the parsed mapping has pairwise-distinct customer ids (each
customer appears exactly once); looking a customer up yields the record of
the LAST accepted line bearing that id (later lines silently overwrite
earlier ones); and a line with four or more fields is accepted using its
first four fields rather than being skipped (the tail `rest` of extra fields
is ignored). -/
theorem c10_duplicate_and_extra_fields (raw : String) :
    ((parse_csv_metrics raw).map Prod.fst).Nodup
    ∧ (∀ cid : String,
        pyLookup (parse_csv_metrics raw) cid =
          ((contributions raw).reverse.find? (fun p => p.1 == cid)).map
            (fun p => p.2))
    ∧ (∀ (line f0 f1 f2 f3 : String) (rest : List String) (a b c : Int),
        pyStrip line ≠ "" → pyStartsWith (pyStrip line) "customer_id" = false →
        pySplit (pyStrip line) "," = f0 :: f1 :: f2 :: f3 :: rest →
        pyInt (pyStrip f1) = some a → pyInt (pyStrip f2) = some b → pyInt (pyStrip f3) = some c →
        parseLine line = some (pyStrip f0,
          [("negative_accum_count", a), ("match_rate_percent", b),
           ("referral_capture_rate_percent", c)])) :=
  ⟨parse_nodup_keys raw, parse_pyLookup raw, parseLine_accepts⟩

/-- Witness for C10 at a concrete input with two lines for the same customer
(the second having extra fields): the lookup returns the record of the last
line, built from its first four fields. -/
theorem c10_witness :
    pyLookup (parse_csv_metrics "C1,1,2,3\nC1,16,60,41,junk,junk2") "C1" =
      some [("negative_accum_count", 16), ("match_rate_percent", 60),
            ("referral_capture_rate_percent", 41)]
    ∧ parseLine "C1,16,60,41,junk,junk2" = some ("C1",
        [("negative_accum_count", 16), ("match_rate_percent", 60),
         ("referral_capture_rate_percent", 41)]) :=
  ⟨by rw [(c10_duplicate_and_extra_fields "C1,1,2,3\nC1,16,60,41,junk,junk2").2.1 "C1"]
      decide,
   (c10_duplicate_and_extra_fields "").2.2 "C1,16,60,41,junk,junk2" "C1" "16" "60" "41"
     ["junk", "junk2"] 16 60 41 (by decide) (by decide) (by decide) (by decide)
     (by decide) (by decide)⟩

/-- Claim C5: whenever the aggregation stage succeeds on a customer metrics
mapping (with the distinct customer keys a Python dict guarantees), every
produced CustomerRiskReport has rollup counts that sum to the number of
metrics of that customer, each count tallies exactly the contained
evaluations with the matching risk level, and the number of contained
evaluations equals the number of metrics of that customer. -/
theorem c5_report_count_invariants (metrics : List (String × List (String × Int)))
    (evals : List RiskEvaluation) (reports : List CustomerRiskReport)
    (hnd : (metrics.map Prod.fst).Nodup)
    (h : evaluate_risks metrics = .ok (evals, reports)) :
    ∀ rep ∈ reports, ∃ md, (rep.customer_id, md) ∈ metrics ∧
      rep.risks.length = md.length ∧
      rep.high_risk_count + rep.medium_risk_count + rep.low_risk_count = md.length ∧
      rep.high_risk_count =
        (rep.risks.filter (fun e => e.risk_level == "High Risk")).length ∧
      rep.medium_risk_count =
        (rep.risks.filter (fun e => e.risk_level == "Medium Risk")).length ∧
      rep.low_risk_count =
        (rep.risks.filter (fun e => e.risk_level == "Low Risk")).length := by
  intro rep hrep
  unfold evaluate_risks at h
  cases hall : evalAll metrics with
  | error err =>
    simp only [hall] at h
    exact absurd h (by simp)
  | ok risk_evaluations =>
    simp only [hall, Except.ok.injEq, Prod.mk.injEq] at h
    obtain ⟨h1, h2⟩ := h
    subst h1
    subst h2
    obtain ⟨p, hpmem, hrepeq⟩ := List.mem_map.mp hrep
    obtain ⟨cid, md⟩ := p
    subst hrepeq
    obtain ⟨es, hes, hfil⟩ := evalAll_filter metrics _ hall hnd cid md hpmem
    obtain ⟨hlen, hprops⟩ := evalCustomer_ok cid md es hes
    have hsum := countP_three es (fun e he => (hprops e he).2)
    refine ⟨md, hpmem, ?_, ?_, ?_, ?_, ?_⟩ <;> simp only [makeReport, hfil]
    · exact hlen
    · rw [hsum]
      exact hlen
    · exact List.countP_eq_length_filter _ _
    · exact List.countP_eq_length_filter _ _
    · exact List.countP_eq_length_filter _ _

/-- Witness for C5 on the spec's end-to-end sample input (one customer,
metrics 3 / 90 / 55, rollup low=2 medium=1 high=0). -/
theorem c5_witness :
    ∃ md, (sampleReport.customer_id, md) ∈ sampleMetrics ∧
      sampleReport.risks.length = md.length ∧
      sampleReport.high_risk_count + sampleReport.medium_risk_count +
        sampleReport.low_risk_count = md.length ∧
      sampleReport.high_risk_count =
        (sampleReport.risks.filter (fun e => e.risk_level == "High Risk")).length ∧
      sampleReport.medium_risk_count =
        (sampleReport.risks.filter (fun e => e.risk_level == "Medium Risk")).length ∧
      sampleReport.low_risk_count =
        (sampleReport.risks.filter (fun e => e.risk_level == "Low Risk")).length :=
  c5_report_count_invariants sampleMetrics sampleEvals [sampleReport]
    (by decide) rfl sampleReport (by decide)

/-- Claim C9: the aggregation stage is a pure function — rerunning it on the
same mapping yields the identical outcome — and on success the flat
evaluation sequence is exactly the insertion-order traversal: customers in
mapping order, metrics within each customer in record order. -/
theorem c9_aggregation_deterministic (metrics : List (String × List (String × Int)))
    (evals : List RiskEvaluation) (reports : List CustomerRiskReport)
    (h : evaluate_risks metrics = .ok (evals, reports)) :
    evaluate_risks metrics = .ok (evals, reports)
    ∧ evals = orderedEvaluations metrics := by
  refine ⟨h, ?_⟩
  unfold evaluate_risks at h
  cases hall : evalAll metrics with
  | error err =>
    simp only [hall] at h
    exact absurd h (by simp)
  | ok risk_evaluations =>
    simp only [hall, Except.ok.injEq, Prod.mk.injEq] at h
    obtain ⟨h1, _⟩ := h
    rw [← h1]
    exact evalAll_ordered metrics risk_evaluations hall

/-- Witness for C9 on the sample input. -/
theorem c9_witness :
    evaluate_risks sampleMetrics = .ok (sampleEvals, [sampleReport])
    ∧ sampleEvals = orderedEvaluations sampleMetrics :=
  c9_aggregation_deterministic sampleMetrics sampleEvals [sampleReport] rfl

/-- The regulatory-updates text of a run in which every search backend call
fails: the fallback chain inside `duckduckgo_search` still returns canned
guidance for each of the three queries. -/
def c6Reg : String :=
  allFailSearch (fun _ => "RatelimitException") (fun _ => "ConnectionError")

/-- Claim C6 counterexample: with the knowledge base empty (its collaborator
failed) and every search backend failing, the regulatory-context appendix
line of the generated report is the first 1000 characters of the (non-empty)
canned per-query fallback text — not the empty string the claim requires. -/
theorem c6_counterexample :
    (generate_report_lines (fun _ => .error "narrative model unavailable") "" []
        c6Reg "ts")[14]? = some (pyTake c6Reg appendixCap)
    ∧ pyTake c6Reg appendixCap ≠ "" := by
  exact ⟨rfl, by decide⟩

/-- Claim C6 (amended): if the knowledge-base collaborator fails (empty KB
text) and every search backend call fails, report generation still returns a
non-empty report; its regulatory-context appendix is the 1000-character
prefix of the non-empty canned search-fallback text (not an empty string);
and when the narrative summarizer also fails, the executive-summary line
documents that failure. -/
theorem c6_degraded_both_collaborators (runErr getErr : String → String)
    (reports : List CustomerRiskReport) (d e : String) :
    allFailSearch runErr getErr ≠ ""
    ∧ generate_report (fun _ => .error e) "" reports (allFailSearch runErr getErr) d ≠ ""
    ∧ (generate_report_lines (fun _ => .error e) "" reports
        (allFailSearch runErr getErr) d)[6]? =
        some ("Error generating summary: " ++ e)
    ∧ pyTake (allFailSearch runErr getErr) appendixCap ∈
        generate_report_lines (fun _ => .error e) "" reports
          (allFailSearch runErr getErr) d := by
  have hconst : allFailSearch runErr getErr = c6Reg := rfl
  refine ⟨?_, generate_report_ne_empty _ _ _ _ _, ?_, ?_⟩
  · rw [hconst]
    decide
  · rw [generate_report_lines_eq]
    have hlen : (reportHeaderLines (summaryOf (fun _ => .error e) "" reports
        (allFailSearch runErr getErr))).length = 10 := rfl
    rw [List.getElem?_append_left (by rw [List.length_append, hlen]; omega),
        List.getElem?_append_left (by rw [hlen]; omega)]
    rfl
  · rw [generate_report_lines_eq]
    simp [reportTailLines]

/-- Witness for the amended C6 at concrete failing backends, an empty report
list and a concrete summarizer failure. -/
theorem c6_witness :
    allFailSearch (fun _ => "RatelimitException") (fun _ => "ConnectionError") ≠ ""
    ∧ generate_report (fun _ => .error "down") "" []
        (allFailSearch (fun _ => "RatelimitException") (fun _ => "ConnectionError"))
        "ts" ≠ ""
    ∧ (generate_report_lines (fun _ => .error "down") "" []
        (allFailSearch (fun _ => "RatelimitException") (fun _ => "ConnectionError"))
        "ts")[6]? = some ("Error generating summary: " ++ "down")
    ∧ pyTake (allFailSearch (fun _ => "RatelimitException") (fun _ => "ConnectionError"))
        appendixCap ∈
        generate_report_lines (fun _ => .error "down") "" []
          (allFailSearch (fun _ => "RatelimitException") (fun _ => "ConnectionError"))
          "ts" :=
  c6_degraded_both_collaborators (fun _ => "RatelimitException")
    (fun _ => "ConnectionError") [] "ts" "down"

/-- Claim C7: if the narrative-summarizer call on the composed prompt fails
with any exception, the generated report equals the report whose summary is
the descriptive string "Error generating summary: " followed by the
exception text — so the rest of the report (customer blocks, regulatory
appendix, footer) is produced in full — and that error string is exactly the
executive-summary line (line index 6). -/
theorem c7_summarizer_failure (fInvoke : String → Except String String)
    (kb : String) (reports : List CustomerRiskReport) (reg d e : String)
    (h : fInvoke (summary_prompt kb reports reg) = .error e) :
    generate_report_lines fInvoke kb reports reg d =
      generate_report_lines (fun _ => .ok ("Error generating summary: " ++ e))
        kb reports reg d
    ∧ (generate_report_lines fInvoke kb reports reg d)[6]? =
        some ("Error generating summary: " ++ e) := by
  have hsum : summaryOf fInvoke kb reports reg = "Error generating summary: " ++ e := by
    unfold summaryOf
    rw [h]
  constructor
  · rw [generate_report_lines_eq, generate_report_lines_eq, hsum]
    rfl
  · rw [generate_report_lines_eq, hsum]
    have hlen : (reportHeaderLines ("Error generating summary: " ++ e)).length = 10 := rfl
    rw [List.getElem?_append_left (by rw [List.length_append, hlen]; omega),
        List.getElem?_append_left (by rw [hlen]; omega)]
    rfl

/-- Witness for C7 at a concrete failing summarizer. -/
theorem c7_witness :
    generate_report_lines (fun _ => .error "ThrottlingException") "" [] "" "" =
      generate_report_lines
        (fun _ => .ok ("Error generating summary: " ++ "ThrottlingException"))
        "" [] "" ""
    ∧ (generate_report_lines (fun _ => .error "ThrottlingException") "" [] "" "")[6]? =
        some ("Error generating summary: " ++ "ThrottlingException") :=
  c7_summarizer_failure (fun _ => .error "ThrottlingException") "" [] "" ""
    "ThrottlingException" rfl

/-- Claim C8: for all inputs the report lines are exactly the title banner
and executive-summary header, then one block per customer (rollup counts
followed by every evaluation's metric/value/tier/threshold/description
lines), then the regulatory-context appendix holding the `appendixCap`
(1000) character prefix of the regulatory text, then the generation
timestamp footer; the summarization prompt embeds the `promptCap` (500)
character prefix of the same text; and the appendix cap is strictly larger
than the prompt cap. -/
theorem c8_report_layout (fInvoke : String → Except String String)
    (kb : String) (reports : List CustomerRiskReport) (reg d : String) :
    generate_report_lines fInvoke kb reports reg d =
      reportHeaderLines (summaryOf fInvoke kb reports reg)
        ++ reports.flatMap customerBlock
        ++ reportTailLines reg d
    ∧ reportTailLines reg d =
        ["", repChar '=' 80, "REGULATORY CONTEXT", repChar '=' 80,
         pyTake reg appendixCap, "", "Report Generated: " ++ pyStrip d,
         repChar '=' 80]
    ∧ summary_prompt kb reports reg =
        promptHead kb reports ++ pyTake reg promptCap ++ promptTail
    ∧ promptCap < appendixCap :=
  ⟨generate_report_lines_eq fInvoke kb reports reg d, rfl,
   summary_prompt_split kb reports reg, by decide⟩

end CRA
